import Mathlib

/-!
Verification development for the nuka-state reactive value-holder library.

The embedding models the library's classes as Lean structures and their
methods as pure state-transition functions:

* `BaseAtom` embeds `src/BaseAtom.ts` (value plus ordered subscriber list;
  subscribers are identified by reference, modelled here as ids of an
  arbitrary type `S` with decidable equality).
* `Atom` embeds `src/Atom.ts` (the queued mutable cell: FIFO updater queue
  plus the single pending deferred-execution handle `updateTimeout`). The
  deferred `setTimeout` ticks are modelled by `Atom.runUpdate` steps, and
  `Atom.settle` runs ticks while one is scheduled. Notifications delivered
  to subscribers are logged in the `trace` field: `notifySubscribers`
  appends one `(subscriber, value)` event per registered subscriber.
* `ReadonlyAtom` embeds `src/ReadonlyAtom.ts`. The starter and stopper the
  caller supplies are opaque side-effecting closures, so the model logs
  their invocations instead of running them: `startCount` counts starter
  invocations, the held stopper `stop` is tagged with the activation that
  produced it, and `stopRuns` logs each stopper invocation with its tag.
* `Projector` embeds the subscription bookkeeping of `src/Projector.ts`
  (second revision in the file, the one the behaviour tests exercise), and
  `ProjWorld` embeds its value computation over a list of source atoms.
* `Reactor` embeds `src/Reactor.ts`; JavaScript property lookup on the
  reaction mapping is modelled by an association-list lookup returning
  `Option` (with `none` playing the role of `undefined`).
-/

namespace NukaState

/-- Truthiness of the JavaScript literal `null`: `Boolean(null)` is `false`.
`BaseAtom.unsubscribe` in `src/BaseAtom.ts` guards its remove-all branch
with `if (null)`, so the branch condition is this constant. -/
def nullTruthy : Bool := false

/-- State of `BaseAtom` (src/BaseAtom.ts): the stored value and the ordered
list of subscribers (insertion order, duplicates allowed). -/
structure BaseAtom (T : Type) (S : Type) where
  value : T
  subscribers : List S
  deriving Repr

/-- Constructor of `BaseAtom` (src/BaseAtom.ts lines 41-44). -/
def BaseAtom.mkNew (v : T) : BaseAtom T S :=
  { value := v, subscribers := [] }

/-- Method `subscribe` (src/BaseAtom.ts lines 62-64): push the subscriber. -/
def BaseAtom.subscribe (a : BaseAtom T S) (s : S) : BaseAtom T S :=
  { a with subscribers := a.subscribers ++ [s] }

/-- Method `unsubscribe` (src/BaseAtom.ts lines 74-82). The argument may be
`null` (modelled as `none`). The source's remove-all branch is guarded by
`if (null)`, whose condition is the falsy literal `null`; otherwise the
list is filtered by reference inequality with the argument. -/
def BaseAtom.unsubscribe [DecidableEq S] (a : BaseAtom T S) (s : Option S) :
    BaseAtom T S :=
  if nullTruthy then
    { a with subscribers := [] }
  else
    { a with subscribers := a.subscribers.filter (fun sub => some sub ≠ s) }

/-- Method `hasSubscribers` (src/BaseAtom.ts lines 104-106). -/
def BaseAtom.hasSubscribers (a : BaseAtom T S) : Bool :=
  a.subscribers.length > 0

/-- Method `notifySubscribers` (src/BaseAtom.ts lines 112-114): every
current subscriber is invoked, in order, with the atom itself. The model
returns the list of delivered notification events, each recording the
subscriber and the value it observes on the atom at that moment. -/
def BaseAtom.notifySubscribers (a : BaseAtom T S) : List (S × T) :=
  a.subscribers.map (fun s => (s, a.value))

/-- Method `setValue` (src/BaseAtom.ts lines 122-124): replace the stored
value with no notification. -/
def BaseAtom.setValue (a : BaseAtom T S) (v : T) : BaseAtom T S :=
  { a with value := v }

/-- State of `Atom` (src/Atom.ts): the inherited `BaseAtom` state, the FIFO
queue of pending update functions, and the pending deferred-execution
handle (`#updateTimeout`, modelled as the Boolean fact that a tick is
scheduled). `trace` accumulates every notification delivered to a
subscriber of this atom over the atom's whole history. -/
structure Atom (T : Type) (S : Type) where
  base : BaseAtom T S
  updaterQueue : List (T → T)
  updateTimeout : Bool
  trace : List (S × T)

/-- Constructor of `Atom` (src/Atom.ts lines 24-27). -/
def Atom.mkNew (v : T) : Atom T S :=
  { base := BaseAtom.mkNew v, updaterQueue := [], updateTimeout := false,
    trace := [] }

/-- An updater passed to `Atom.update` is either a plain value or an update
function (src/Atom.ts lines 9-18). -/
def AtomUpdater (T : Type) : Type := T ⊕ (T → T)

/-- Inherited `subscribe` on an `Atom`. -/
def Atom.subscribe (a : Atom T S) (s : S) : Atom T S :=
  { a with base := a.base.subscribe s }

/-- Inherited `unsubscribe` on an `Atom`. -/
def Atom.unsubscribe [DecidableEq S] (a : Atom T S) (s : Option S) : Atom T S :=
  { a with base := a.base.unsubscribe s }

/-- Method `queueUpdate` (src/Atom.ts lines 54-60): append the updater to
the queue; if no deferred execution is scheduled, schedule one. -/
def Atom.queueUpdate (a : Atom T S) (f : T → T) : Atom T S :=
  let a1 := { a with updaterQueue := a.updaterQueue ++ [f] }
  if !a1.updateTimeout then { a1 with updateTimeout := true } else a1

/-- Method `update` (src/Atom.ts lines 29-38): a non-function argument is
wrapped as a constant-returning function, then queued. -/
def Atom.update (a : Atom T S) (u : AtomUpdater T) : Atom T S :=
  match u with
  | Sum.inl v => a.queueUpdate (fun _ => v)
  | Sum.inr f => a.queueUpdate f

/-- Method `clearUpdateQueue` (src/Atom.ts lines 46-52): cancel the
scheduled deferred execution, if any, and drop all pending updaters. -/
def Atom.clearUpdateQueue (a : Atom T S) : Atom T S :=
  { a with updateTimeout := false, updaterQueue := [] }

/-- Method `set` (src/Atom.ts lines 40-44): clear the update queue, store
the value, then notify subscribers. -/
def Atom.set (a : Atom T S) (v : T) : Atom T S :=
  let a1 := a.clearUpdateQueue
  let a2 := { a1 with base := a1.base.setValue v }
  { a2 with trace := a2.trace ++ a2.base.notifySubscribers }

/-- Method `runUpdate` (src/Atom.ts lines 62-74), one deferred tick: clear
the scheduled marker, shift the oldest updater off the queue and, when one
was present, store `updater(value)`; finally, if the queue is still
non-empty, schedule another tick. Note that the source stores the new
value with `setValue` and does not call `notifySubscribers` here, so the
model leaves `trace` unchanged. -/
def Atom.runUpdate (a : Atom T S) : Atom T S :=
  let a1 := { a with updateTimeout := false }
  match a1.updaterQueue with
  | [] => a1
  | f :: rest =>
      let a2 := { a1 with updaterQueue := rest,
                          base := a1.base.setValue (f a1.base.value) }
      if a2.updaterQueue.length > 0 then { a2 with updateTimeout := true }
      else a2

/-- Fuelled iteration of deferred ticks. -/
def Atom.settleAux : Nat → Atom T S → Atom T S
  | 0, a => a
  | Nat.succ n, a =>
      if a.updateTimeout then Atom.settleAux n a.runUpdate else a

/-- Run deferred ticks while one is scheduled; one tick per queued updater
plus one suffices, since each tick consumes one queue entry and a tick
with an empty queue does not reschedule. -/
def Atom.settle (a : Atom T S) : Atom T S :=
  Atom.settleAux (a.updaterQueue.length + 1) a

/-- State of `ReadonlyAtom` (src/ReadonlyAtom.ts). `hasStart` records
whether a starter function was supplied at construction; `startGivesStop`
records whether that starter returns a stopper (it may return `undefined`).
The starter and stopper are opaque caller closures, so the model logs their
invocations: invoking the starter increments `startCount` and assigns
`stop` (the held `#stop` reference, tagged by the producing activation);
invoking the held stopper appends its tag to `stopRuns`. The source never
assigns `#stop = undefined` after calling it, and neither does the model. -/
structure ReadonlyAtom (T : Type) (S : Type) where
  base : BaseAtom T S
  hasStart : Bool
  startGivesStop : Bool
  stop : Option Nat
  live : Bool
  startCount : Nat
  stopRuns : List Nat

/-- Constructor of `ReadonlyAtom` (src/ReadonlyAtom.ts lines 126-131) when
no starter is supplied: the value is permanently static. -/
def ReadonlyAtom.mkStatic (v : T) : ReadonlyAtom T S :=
  { base := BaseAtom.mkNew v, hasStart := false, startGivesStop := false,
    stop := none, live := false, startCount := 0, stopRuns := [] }

/-- Constructor of `ReadonlyAtom` (src/ReadonlyAtom.ts lines 126-131) when
a starter is supplied; `givesStop` records whether this particular starter
closure returns a stopper. -/
def ReadonlyAtom.mkWithStart (v : T) (givesStop : Bool) : ReadonlyAtom T S :=
  { base := BaseAtom.mkNew v, hasStart := true, startGivesStop := givesStop,
    stop := none, live := false, startCount := 0, stopRuns := [] }

/-- Effect of the statement `this.#stop = this.#start(this.setter)`: the
starter runs (a fresh activation) and whatever it returns, a stopper or
`undefined`, is assigned to the held `#stop` reference. -/
def ReadonlyAtom.invokeStart (a : ReadonlyAtom T S) : ReadonlyAtom T S :=
  { a with startCount := a.startCount + 1,
           stop := if a.startGivesStop then some (a.startCount + 1) else none }

/-- Effect of the statement `this.#stop()`: the held stopper runs. The
source only executes this under a guard that `#stop` is truthy, and it does
not clear `#stop` afterwards. -/
def ReadonlyAtom.invokeStop (a : ReadonlyAtom T S) : ReadonlyAtom T S :=
  match a.stop with
  | some t => { a with stopRuns := a.stopRuns ++ [t] }
  | none => a

/-- Method `setLive` (src/ReadonlyAtom.ts lines 141-155): return unchanged
when the flag does not change; run the held stopper when dropping live with
no subscribers and a held stopper; run the starter when raising live while
a starter exists; finally store the new flag. -/
def ReadonlyAtom.setLive (a : ReadonlyAtom T S) (isLive : Bool) :
    ReadonlyAtom T S :=
  if a.live == isLive then a
  else
    let a1 := if a.live && !a.base.hasSubscribers && a.stop.isSome
              then a.invokeStop else a
    let a2 := if !a1.live && a1.hasStart then a1.invokeStart else a1
    { a2 with live := isLive }

/-- Method `subscribe` (src/ReadonlyAtom.ts lines 167-179): without a
starter this is a no-op (the subscriber is not even registered); otherwise
the starter runs when the atom has no subscribers and is not live, and then
the subscriber is registered. -/
def ReadonlyAtom.subscribe (a : ReadonlyAtom T S) (s : S) : ReadonlyAtom T S :=
  if !a.hasStart then a
  else
    let a1 := if !a.base.hasSubscribers && !a.live then a.invokeStart else a
    { a1 with base := a1.base.subscribe s }

/-- Method `unsubscribe` (src/ReadonlyAtom.ts lines 191-203): without a
starter this is a no-op; otherwise the subscriber is deregistered and then
the held stopper runs when the atom has no subscribers, holds a stopper and
is not live. -/
def ReadonlyAtom.unsubscribe [DecidableEq S] (a : ReadonlyAtom T S)
    (s : Option S) : ReadonlyAtom T S :=
  if !a.hasStart then a
  else
    let a1 := { a with base := a.base.unsubscribe s }
    if !a1.base.hasSubscribers && a1.stop.isSome && !a1.live
    then a1.invokeStop else a1

/-- Method `setter` (src/ReadonlyAtom.ts lines 211-214), the callback handed
to the starter: store the new value and notify all subscribers. This is the
only path that changes a `ReadonlyAtom`'s value. The delivered notification
events are returned alongside the new state. -/
def ReadonlyAtom.setter (a : ReadonlyAtom T S) (v : T) :
    ReadonlyAtom T S × List (S × T) :=
  let a1 := { a with base := a.base.setValue v }
  (a1, a1.base.notifySubscribers)

/-- Public operations available on a `ReadonlyAtom`. -/
inductive ROp (S : Type) where
  | sub (s : S)
  | unsub (s : Option S)
  | markLive (b : Bool)

/-- Interpret one public operation on a `ReadonlyAtom`. -/
def ReadonlyAtom.applyOp [DecidableEq S] (a : ReadonlyAtom T S) :
    ROp S → ReadonlyAtom T S
  | ROp.sub s => a.subscribe s
  | ROp.unsub s => a.unsubscribe s
  | ROp.markLive b => a.setLive b

/-- Interpret a sequence of public operations on a `ReadonlyAtom`. -/
def ReadonlyAtom.applyOps [DecidableEq S] (a : ReadonlyAtom T S) :
    List (ROp S) → ReadonlyAtom T S
  | [] => a
  | op :: rest => (a.applyOp op).applyOps rest

/-- Subscription bookkeeping of `Projector` (src/Projector.ts, second
revision, lines 331-497). `subscribers` is the projector's own subscriber
list (inherited from `BaseAtom`); `regularCount` and `readonlyCount` are
the sizes of the partition of the sources computed at construction;
`regularAttached` records whether the update handler is currently
subscribed to the regular sources, and `subscribedToReadonlyAtoms` is the
`#subscribedToReadonlyAtoms` flag, which holds exactly when the update
handler is subscribed to the `ReadonlyAtom` sources. -/
structure Projector (S : Type) where
  subscribers : List S
  regularCount : Nat
  readonlyCount : Nat
  regularAttached : Bool
  subscribedToReadonlyAtoms : Bool
  deriving Repr, DecidableEq

/-- Method `unsubscribeFromAtoms` (src/Projector.ts lines 408-414): detach
the update handler from every source and drop the flag. -/
def Projector.unsubscribeFromAtoms (p : Projector S) : Projector S :=
  { p with regularAttached := false, subscribedToReadonlyAtoms := false }

/-- Method `subscribeToReadonlyAtoms` (src/Projector.ts lines 459-467):
attach the update handler to the `ReadonlyAtom` sources only when there is
at least one such source, the projector has a subscriber, and the handler
is not already attached. -/
def Projector.subscribeToReadonlyAtoms (p : Projector S) : Projector S :=
  if p.readonlyCount > 0 && p.subscribers.length > 0
     && !p.subscribedToReadonlyAtoms
  then { p with subscribedToReadonlyAtoms := true }
  else p

/-- Method `unsubscribeFromReadonlyAtoms` (src/Projector.ts lines 472-482):
when the flag is set, detach the update handler from every `ReadonlyAtom`
source and drop the flag; the remaining subscriber count is not consulted. -/
def Projector.unsubscribeFromReadonlyAtoms (p : Projector S) : Projector S :=
  if !p.subscribedToReadonlyAtoms then p
  else { p with subscribedToReadonlyAtoms := false }

/-- Method `subscribeToAtoms` (src/Projector.ts lines 420-428): first
detach from everything, then attach to the regular sources, then attach to
the `ReadonlyAtom` sources when the conditions hold. -/
def Projector.subscribeToAtoms (p : Projector S) : Projector S :=
  let p1 := p.unsubscribeFromAtoms
  let p2 := { p1 with regularAttached := true }
  p2.subscribeToReadonlyAtoms

/-- Constructor of `Projector` (src/Projector.ts lines 383-401): start with
no subscribers, partition the sources into `nRegular` regular and
`nReadonly` readonly ones, then call `subscribeToAtoms`. -/
def Projector.mkNew (nRegular nReadonly : Nat) : Projector S :=
  Projector.subscribeToAtoms
    { subscribers := [], regularCount := nRegular,
      readonlyCount := nReadonly, regularAttached := false,
      subscribedToReadonlyAtoms := false }

/-- Method `subscribe` (src/Projector.ts lines 437-440): register the
subscriber via `BaseAtom.subscribe`, then `subscribeToReadonlyAtoms`. -/
def Projector.subscribe (p : Projector S) (s : S) : Projector S :=
  Projector.subscribeToReadonlyAtoms
    { p with subscribers := p.subscribers ++ [s] }

/-- Method `unsubscribe` (src/Projector.ts lines 449-452): deregister the
subscriber via `BaseAtom.unsubscribe`, then `unsubscribeFromReadonlyAtoms`
(which is called regardless of how many subscribers remain). -/
def Projector.unsubscribe [DecidableEq S] (p : Projector S) (s : S) :
    Projector S :=
  Projector.unsubscribeFromReadonlyAtoms
    { p with subscribers := p.subscribers.filter (fun sub => sub ≠ s) }

/-- Value computation of `Projector` over its sources: the projection
function, the list of source atoms (regular mutable cells, to each of which
the constructor subscribed the update handler), and the stored projected
value. -/
structure ProjWorld (V T : Type) (S : Type) where
  projection : List V → T
  sources : List (Atom V S)
  projValue : T

/-- Constructor value computation (src/Projector.ts line 384): the initial
value is the projection applied to the current values of all sources, in
order. -/
def ProjWorld.mkNew (f : List V → T) (sources : List (Atom V S)) :
    ProjWorld V T S :=
  { projection := f, sources := sources,
    projValue := f (sources.map (fun a => a.base.value)) }

/-- The private update handler (src/Projector.ts lines 490-496): re-read
every source value in original order, re-apply the projection, store the
result (and notify the projector's own subscribers). -/
def ProjWorld.handlerUpdate (w : ProjWorld V T S) : ProjWorld V T S :=
  { w with projValue := w.projection (w.sources.map (fun a => a.base.value)) }

/-- A source mutation step: `Atom.set` on source `i` replaces that source's
value and synchronously notifies its subscribers, among them the update
handler the constructor subscribed, which therefore runs. -/
def ProjWorld.sourceSet (w : ProjWorld V T S) (i : Nat) (v : V) :
    ProjWorld V T S :=
  ProjWorld.handlerUpdate
    { w with sources := List.modify (fun a => Atom.set a v) i w.sources }

/-- Interpret a sequence of source mutation steps. -/
def ProjWorld.run (w : ProjWorld V T S) (steps : List (Nat × V)) :
    ProjWorld V T S :=
  steps.foldl (fun w p => w.sourceSet p.1 p.2) w

/-- State of `Reactor` (src/Reactor.ts): the wrapped mutable atom and the
reaction mapping. A JavaScript object keyed by strings is modelled as an
association list; `reactionKeys` is `Object.keys` of the mapping. Each
mutation takes the current value and the caller-supplied argument list. -/
structure Reactor (T : Type) (S : Type) (A : Type) where
  atom : Atom T S
  reactions : List (String × (T → List A → T))
  reactionKeys : List String

/-- Constructor of `Reactor` (src/Reactor.ts lines 114-129): throw a
`TypeError` when the mapping has no keys; otherwise wrap each mutation and
subscribe the internal forwarder (identified by `forwarderId`) to the
wrapped atom. -/
def Reactor.mkNew (atom : Atom T S) (forwarderId : S)
    (reactions : List (String × (T → List A → T))) :
    Except String (Reactor T S A) :=
  let keys := reactions.map Prod.fst
  if keys.length < 1 then
    Except.error "TypeError: Reactor requires at least one reaction."
  else
    Except.ok { atom := atom.subscribe forwarderId, reactions := reactions,
                reactionKeys := keys }

/-- JavaScript property access `this.#reactions[reactionName]`: the bound
reaction function when the key is present, `undefined` (modelled `none`)
when it is not. -/
def Reactor.lookupReaction (r : Reactor T S A) (name : String) :
    Option (T → List A → T) :=
  (r.reactions.find? (fun kv => kv.1 == name)).map Prod.snd

/-- Method `react` (src/Reactor.ts lines 162-166): look the bound reaction
up and call it. When the name is unknown the lookup yields `undefined` and
the call `reaction(...args)` throws a `TypeError`; otherwise the wrapped
reaction (lines 224-229) computes `mutation(atom.value, ...args)` and
feeds it through the wrapped atom's `update` path. -/
def Reactor.react (r : Reactor T S A) (name : String) (args : List A) :
    Except String (Reactor T S A) :=
  match r.lookupReaction name with
  | none => Except.error "TypeError: reaction is not a function"
  | some m =>
      let newValue := m r.atom.base.value args
      Except.ok { r with atom := r.atom.update (Sum.inl newValue) }

/-- Method `extract` (src/Reactor.ts lines 192-194): return
`this.#reactions[reactionName]` directly; an unknown name yields
`undefined` (modelled `none`) and no error is raised. -/
def Reactor.extract (r : Reactor T S A) (name : String) :
    Option (T → List A → T) :=
  r.lookupReaction name

/-- Factory `projector` (src/index.ts lines 648-662): throw a `TypeError`
when fewer than two arguments are supplied; otherwise the last argument is
the projection function and the rest are the source atoms, handed to the
`Projector` constructor. The variadic arguments are modelled as a list of
an arbitrary type `P`; the result is the (atoms, projection) split. -/
def projectorFactory (args : List P) : Except String (List P × P) :=
  if h : args.length < 2 then
    Except.error "TypeError: projector takes a minimum of two (2) arguments, an atom-like and a projection function"
  else
    Except.ok (args.dropLast,
      args.getLast (List.ne_nil_of_length_pos (by omega)))

/-! Theorems about the embedded operations. -/

/-- Concrete queued mutable cell for exercising the deferred update path:
initial value 0, one subscriber (id 7). -/
def c1Atom : Atom Nat Nat := (Atom.mkNew 0).subscribe 7

/-- State of `c1Atom` after queueing two increment updates and running all
deferred ticks. -/
def c1After : Atom Nat Nat :=
  (((c1Atom.update (Sum.inr (fun n => n + 1))).update
      (Sum.inr (fun n => n + 1)))).settle

/-- Claim C1: the deferred execution step is supposed to pop the oldest
queued update, store `updateFn(currentValue)` and then notify every
subscriber, so two queued increments from 0 should produce the observed
notification sequence 1 then 2. Evaluating the code at this input: both
updates are applied (the value reaches 2 and the queue drains), but
`runUpdate` never calls `notifySubscribers`, so the subscriber observes no
notification at all. -/
theorem atom_deferred_ticks_apply_updates_without_notifying :
    c1After.base.value = 2 ∧ c1After.trace = [] ∧
    c1After.updaterQueue = [] ∧ c1After.updateTimeout = false :=
  ⟨rfl, rfl, rfl, rfl⟩

/-- Claim C5: `set(v)` clears the entire pending-update queue and cancels
the scheduled deferred execution before storing `v` and notifying every
subscriber with `v`; settling afterwards is a no-op, so no previously
queued update ever applies and the value stays exactly `v`. -/
theorem atom_set_clears_queue_and_wins (a : Atom T S) (v : T) :
    (a.set v).updaterQueue = [] ∧ (a.set v).updateTimeout = false ∧
    (a.set v).base.value = v ∧
    (a.set v).trace = a.trace ++ a.base.subscribers.map (fun s => (s, v)) ∧
    (a.set v).settle = a.set v ∧ ((a.set v).settle).base.value = v := by
  refine ⟨rfl, rfl, rfl, rfl, rfl, rfl⟩

/-- Claim C10: passing `null` to `BaseAtom.unsubscribe` removes nothing.
The remove-all branch is guarded by the falsy literal `null`, so it never
runs, and the filter keeps every subscriber, leaving the next notification
pass identical. -/
theorem base_atom_unsubscribe_null_removes_nothing [DecidableEq S]
    (a : BaseAtom T S) :
    (a.unsubscribe none).subscribers = a.subscribers ∧
    (a.unsubscribe none).notifySubscribers = a.notifySubscribers := by
  constructor
  · simp [BaseAtom.unsubscribe, nullTruthy]
  · simp [BaseAtom.unsubscribe, nullTruthy, BaseAtom.notifySubscribers]

/-- Single-fact invariant of a starterless `ReadonlyAtom`: no starter, the
original value, no subscribers, no held stopper, and neither closure ever
invoked. -/
def staticInert (v : T) (a : ReadonlyAtom T S) : Prop :=
  a.hasStart = false ∧ a.base.value = v ∧ a.base.subscribers = [] ∧
  a.stop = none ∧ a.startCount = 0 ∧ a.stopRuns = []

/-- Every public operation preserves `staticInert`. -/
theorem staticInert_applyOp [DecidableEq S] {v : T} {a : ReadonlyAtom T S}
    (h : staticInert v a) (op : ROp S) : staticInert v (a.applyOp op) := by
  obtain ⟨h1, h2, h3, h4, h5, h6⟩ := h
  cases op with
  | sub s =>
      simp [ReadonlyAtom.applyOp, ReadonlyAtom.subscribe, h1, staticInert,
        h2, h3, h4, h5, h6]
  | unsub s =>
      simp [ReadonlyAtom.applyOp, ReadonlyAtom.unsubscribe, h1, staticInert,
        h2, h3, h4, h5, h6]
  | markLive b =>
      by_cases hb : a.live = b
      · simp [ReadonlyAtom.applyOp, ReadonlyAtom.setLive, hb, staticInert,
          h1, h2, h3, h4, h5, h6]
      · simp [ReadonlyAtom.applyOp, ReadonlyAtom.setLive, hb, h1, h4,
          staticInert, h2, h3, h5, h6]

/-- Sequences of public operations preserve `staticInert`. -/
theorem staticInert_applyOps [DecidableEq S] {v : T} {a : ReadonlyAtom T S}
    (h : staticInert v a) (ops : List (ROp S)) :
    staticInert v (a.applyOps ops) := by
  induction ops generalizing a with
  | nil => exact h
  | cons op rest ih => exact ih (staticInert_applyOp h op)

/-- Claim C8: a `ReadonlyAtom` constructed without a starter never changes
value under any sequence of subscribe, unsubscribe and setLive calls, never
registers a subscriber, and its subscribe and unsubscribe methods return
the state unchanged. -/
theorem static_readonly_atom_is_inert [DecidableEq S] (v : T)
    (ops : List (ROp S)) (s : S) (os : Option S) :
    ((ReadonlyAtom.mkStatic v).applyOps ops).base.value = v ∧
    ((ReadonlyAtom.mkStatic v).applyOps ops).base.subscribers = [] ∧
    ((ReadonlyAtom.mkStatic v).applyOps ops).startCount = 0 ∧
    ((ReadonlyAtom.mkStatic v).applyOps ops).stopRuns = [] ∧
    (ReadonlyAtom.mkStatic v).subscribe s = ReadonlyAtom.mkStatic v ∧
    (ReadonlyAtom.mkStatic v).unsubscribe os = ReadonlyAtom.mkStatic v := by
  have h0 : staticInert v (ReadonlyAtom.mkStatic v (S := S)) :=
    ⟨rfl, rfl, rfl, rfl, rfl, rfl⟩
  obtain ⟨_, r2, r3, _, r5, r6⟩ := staticInert_applyOps h0 ops
  refine ⟨r2, r3, r5, r6, ?_, ?_⟩
  · simp [ReadonlyAtom.subscribe, ReadonlyAtom.mkStatic]
  · simp [ReadonlyAtom.unsubscribe, ReadonlyAtom.mkStatic]

/-- Lazily-activated source with a starter that returns a stopper, after
one subscriber (id 1) arrives: the starter has run once and its stopper is
held. -/
def c3Subscribed : ReadonlyAtom Nat Nat :=
  (ReadonlyAtom.mkWithStart 0 true).subscribe 1

/-- State after additionally calling `setLive(true)` while the subscriber
is still present and the stopper from activation 1 is still held. -/
def c3After : ReadonlyAtom Nat Nat := c3Subscribed.setLive true

/-- Claim C3: the starter must never be invoked while a stopper from a
previous invocation is outstanding. Evaluating the code: after `subscribe`
the starter has run once and its stopper is held and not yet run, yet
`setLive(true)` (which only checks the live flag, not the held stopper)
invokes the starter a second time. -/
theorem setLive_true_reinvokes_starter_while_active :
    c3Subscribed.startCount = 1 ∧ c3Subscribed.stop = some 1 ∧
    c3Subscribed.stopRuns = [] ∧
    c3After.startCount = 2 ∧ c3After.stopRuns = [] :=
  ⟨rfl, rfl, rfl, rfl, rfl⟩

/-- Lazily-activated source after one subscribe/unsubscribe cycle: the
single activation's stopper has run once, deactivating the source. -/
def c4Deactivated : ReadonlyAtom Nat Nat :=
  ((ReadonlyAtom.mkWithStart 0 true).subscribe 1).unsubscribe (some 1)

/-- State after one further `unsubscribe` with a callback that was never
registered (id 2), issued while the source is already inactive. -/
def c4After : ReadonlyAtom Nat Nat := c4Deactivated.unsubscribe (some 2)

/-- Claim C4: each activation's stopper must run exactly once and never
while the source is inactive. Evaluating the code: the last unsubscribe
runs the stopper of activation 1 but `#stop` is never cleared, so a second
unsubscribe with a never-registered callback runs the same stopper again
while the source is inactive. -/
theorem redundant_unsubscribe_reinvokes_stopper :
    c4Deactivated.startCount = 1 ∧ c4Deactivated.base.subscribers = [] ∧
    c4Deactivated.stopRuns = [1] ∧
    c4After.startCount = 1 ∧ c4After.stopRuns = [1, 1] :=
  ⟨rfl, rfl, rfl, rfl, rfl⟩

/-- Projector over one `ReadonlyAtom` source, carrying two subscribers
(ids 1 and 2), after subscriber 1 leaves. -/
def c2After : Projector Nat :=
  (((Projector.mkNew 0 1).subscribe 1).subscribe 2).unsubscribe 1

/-- Claim C2: the update handler should stay subscribed to the lazy sources
while the projector has at least one subscriber, detaching only when the
last subscriber leaves. Evaluating the code: after the first subscriber
arrives the handler is attached, but unsubscribing subscriber 1 detaches
the handler from the `ReadonlyAtom` sources even though subscriber 2
remains. -/
theorem unsubscribe_detaches_lazy_sources_despite_remaining_subscriber :
    ((Projector.mkNew 0 1).subscribe 1).subscribedToReadonlyAtoms = true ∧
    c2After.subscribers = [2] ∧
    c2After.subscribedToReadonlyAtoms = false ∧
    c2After.regularAttached = true :=
  ⟨rfl, rfl, rfl, rfl⟩

/-- Invariant tying a projector world's stored value to its sources. -/
def projTracks (w : ProjWorld V T S) : Prop :=
  w.projValue = w.projection (w.sources.map (fun a => a.base.value))

/-- One source mutation step reestablishes `projTracks` and leaves the
projection function unchanged. -/
theorem projTracks_sourceSet (w : ProjWorld V T S) (i : Nat) (v : V) :
    projTracks (w.sourceSet i v) ∧
    (w.sourceSet i v).projection = w.projection := ⟨rfl, rfl⟩

/-- Running any sequence of source mutation steps preserves `projTracks`
and the projection function. -/
theorem projTracks_run (w : ProjWorld V T S) (steps : List (Nat × V))
    (h : projTracks w) :
    projTracks (w.run steps) ∧ (w.run steps).projection = w.projection := by
  induction steps generalizing w with
  | nil => exact ⟨h, rfl⟩
  | cons step rest ih =>
      obtain ⟨ih1, ih2⟩ := ih (w.sourceSet step.1 step.2)
        (projTracks_sourceSet w step.1 step.2).1
      exact ⟨ih1, ih2.trans (projTracks_sourceSet w step.1 step.2).2⟩

/-- Claim C6: a projector's value equals the projection applied to the
current values of all sources in original order, immediately after
construction and after any sequence of source mutations (each of which
notifies the subscribed update handler). -/
theorem projector_value_tracks_sources (f : List V → T)
    (src : List (Atom V S)) (steps : List (Nat × V)) :
    (ProjWorld.mkNew f src).projValue
      = f (src.map (fun a => a.base.value)) ∧
    ((ProjWorld.mkNew f src).run steps).projValue
      = f ((((ProjWorld.mkNew f src).run steps)).sources.map
            (fun a => a.base.value)) := by
  obtain ⟨h1, h2⟩ := projTracks_run (ProjWorld.mkNew f src) steps rfl
  refine ⟨rfl, ?_⟩
  rw [h1, h2]
  rfl

/-- Claim C9: misconfigured construction fails immediately. A `Reactor`
built over an empty reaction mapping throws a `TypeError` in the
constructor, and the `projector` factory throws a `TypeError` when called
with fewer than two arguments (in particular with zero source atoms). -/
theorem misconfigured_construction_fails (a : Atom T S) (fid : S) (x : P) :
    Reactor.mkNew a fid ([] : List (String × (T → List A → T)))
      = Except.error "TypeError: Reactor requires at least one reaction." ∧
    projectorFactory ([] : List P)
      = Except.error "TypeError: projector takes a minimum of two (2) arguments, an atom-like and a projection function" ∧
    projectorFactory [x]
      = Except.error "TypeError: projector takes a minimum of two (2) arguments, an atom-like and a projection function" :=
  ⟨rfl, rfl, rfl⟩

/-- Concrete reactor with the single reaction name "increment" over a
wrapped atom holding 0, as built by the constructor. -/
def c7Reactor : Reactor Nat Nat Nat :=
  { atom := (Atom.mkNew 0).subscribe 9,
    reactions := [("increment", fun v _ => v + 1)],
    reactionKeys := ["increment"] }

/-- Claim C7 as stated is false: `extract` with an unconfigured name does
not signal an error; the property access yields `undefined` (modelled
`none`) and `extract` returns it as is. -/
theorem extract_unknown_name_returns_undefined :
    c7Reactor.extract "missing" = none := rfl

/-- Amended claim C7: `react` with a name that is not a key of the mapping
throws a `TypeError` (the lookup yields `undefined` and the call fails),
but `extract` with an unknown name silently returns `undefined` rather
than signalling an error. -/
theorem react_throws_but_extract_is_silent_on_unknown_name
    (r : Reactor T S A) (name : String) (args : List A)
    (h : r.lookupReaction name = none) :
    r.react name args = Except.error "TypeError: reaction is not a function"
      ∧ r.extract name = none := by
  constructor
  · simp [Reactor.react, h]
  · exact h

/-- Witness for the amended claim C7 at the concrete reactor and the
unknown name "missing". -/
theorem react_throws_but_extract_is_silent_witness :
    c7Reactor.react "missing" []
        = Except.error "TypeError: reaction is not a function" ∧
    c7Reactor.extract "missing" = none :=
  react_throws_but_extract_is_silent_on_unknown_name c7Reactor "missing" [] rfl

end NukaState
